import Mathlib

/-!
Verification of the orbus serial bridge protocol core
(`src/hardware/serial_controller.cpp`, `src/hardware/uNavInterface.cpp`).

The embedding models machine bytes as `Nat`, the callback hashmap as an
association list from a category byte to a handler identifier, and the
serial transport as an oracle describing the outcome of the blocking
write and read calls of one round trip.  The packet walk of
`serial_controller::parse_packet` is translated with explicit fuel so
that the non-terminating zero-self-length case is observable as an
exhausted-fuel flag.
-/

namespace orbus

/-- Connection status values of `serial_status_t`
(set by the controller after each round-trip step). -/
inductive serial_status_t where
  | SERIAL_OK
  | SERIAL_EMPTY
  | SERIAL_BUFFER_FULL
  | SERIAL_TIMEOUT
  | SERIAL_EXCEPTION
  | SERIAL_IOEXCEPTION
deriving DecidableEq, Repr

/-- `packet_t`: a received or transmitted physical frame body,
`buffer` holding the bytes and `length` the count of valid bytes. -/
structure packet_t where
  length : Nat
  buffer : List Nat
deriving DecidableEq, Repr

/-- `packet_information_t`: one logical sub-packet, laid out on the wire
as `[self-length][type][option][command][message bytes]` where
`length` (the self-length) equals `message.length + 4` for a valid
descriptor. -/
structure packet_information_t where
  length : Nat
  type : Nat
  option : Nat
  command : Nat
  message : List Nat
deriving DecidableEq, Repr

/-- A sub-packet is valid when its self-length field matches its
actual encoded size of four header bytes plus the payload. -/
def validPacket (p : packet_information_t) : Prop :=
  p.length = p.message.length + 4

/-- Wire layout of one sub-packet:
`[self-length][type][option][command][payload...]`. -/
def encodeSub (p : packet_information_t) : List Nat :=
  p.length :: p.type :: p.option :: p.command :: p.message

/-- Concatenation of the encoded sub-packets of a batch
(the body of a frame, between the fixed header and the trailing byte). -/
def encodeFrame (batch : List packet_information_t) : List Nat :=
  (batch.map encodeSub).flatten

/-- Sum of the self-lengths of a batch: the count of body bytes. -/
def sizeSum (batch : List packet_information_t) : Nat :=
  (batch.map (fun p => p.length)).sum

/-- Modelled from the spec: the fixed frame header length
(`LNG_PACKET_HEADER` of the or_bus library, not under `src/`);
its concrete value does not affect any claim. -/
def LNG_PACKET_HEADER : Nat := 2

/-- Modelled from the spec: the transport's maximum frame capacity
(`MAX_BUFF_TX` of the or_bus library, not under `src/`); fixed here to a
concrete value so that over-capacity batches exist. -/
def MAX_FRAME_CAPACITY : Nat := 128

/-- Total frame byte count: header length plus the sum of all
sub-packet self-lengths plus one trailing byte (spec section 6). -/
def frameSize (batch : List packet_information_t) : Nat :=
  LNG_PACKET_HEADER + sizeSum batch + 1

/-- Modelled from the spec: the or_bus `encoder` (not under `src/`)
encodes a batch into one frame and returns the number of descriptors
encoded; it encodes the whole batch exactly when the resulting frame
size is within the transport's maximum frame capacity, and otherwise
fails with a smaller count (the batch is rejected). -/
def encoder (batch : List packet_information_t) : Nat × packet_t :=
  if frameSize batch ≤ MAX_FRAME_CAPACITY then
    (batch.length, { length := sizeSum batch, buffer := encodeFrame batch })
  else
    (0, { length := 0, buffer := [] })

/-- Modelled from the spec: the or_bus `encoderSingle` (not under
`src/`) encodes one descriptor into a frame. -/
def encoderSingle (frame : packet_information_t) : packet_t :=
  { length := frame.length, buffer := encodeSub frame }

/-- The sub-packet that `parse_packet`'s
`memcpy((unsigned char*) &info, &receive.buffer[i], receive.buffer[i])`
materialises at offset `i`: the struct fields are read from consecutive
buffer positions; bytes past the end of the buffer are modelled as 0. -/
def subPacketAt (buf : List Nat) (i : Nat) : packet_information_t :=
  { length := buf.getD i 0
    type := buf.getD (i + 1) 0
    option := buf.getD (i + 2) 0
    command := buf.getD (i + 3) 0
    message :=
      (List.range (buf.getD i 0 - 4)).map (fun k => buf.getD (i + 4 + k) 0) }

/-- The loop of `parse_packet`:
`for (int i = 0; i < receive.length; i += receive.buffer[i])`.
Returns the decoded sub-packets in order, a flag recording whether some
`memcpy` read past the `length` valid bytes
(`receive.length < i + receive.buffer[i]` at some visited offset), and
whether the loop terminated within the given fuel (a zero self-length
keeps `i` unchanged, so the C loop never terminates and the fuel runs
out). -/
def parseSteps (buf : List Nat) (n : Nat) :
    Nat → Nat → List packet_information_t × Bool × Bool
  | 0, _ => ([], false, false)
  | fuel + 1, i =>
    if i < n then
      let len := buf.getD i 0
      let r := parseSteps buf n fuel (i + len)
      (subPacketAt buf i :: r.1, (decide (n < i + len) || r.2.1), r.2.2)
    else
      ([], false, true)

/-- The dispatch decisions of `parse_packet`'s loop body, in sub-packet
order: a type-0 entry is only logged (`Return alive message`); a type
present in the hashmap invokes its callback with
`(option, type, command, message)`; any other entry falls through the
`else if` chain with no effect. -/
def dispatchInfos (hm : List (Nat × Nat)) (infos : List packet_information_t) :
    List (Nat × Nat × Nat × Nat × List Nat) :=
  infos.filterMap (fun info =>
    if info.type = 0 then none
    else
      match hm.lookup info.type with
      | some cb => some (cb, info.option, info.type, info.command, info.message)
      | none => none)

/-- Controller state: the fields of `serial_controller` that the
embedded operations read or write. -/
structure CtrlState where
  mStatus : serial_status_t
  mStopping : Bool
  list_send : List packet_information_t
  mReceive : packet_t
deriving DecidableEq, Repr

/-- State after the constructor: `mStatus = SERIAL_OK`, empty pending
list, empty receive buffer. -/
def initState : CtrlState :=
  { mStatus := .SERIAL_OK
    mStopping := false
    list_send := []
    mReceive := { length := 0, buffer := [] } }

/-- Everything `parse_packet` produces besides the state update:
the returned Bool, the decoded sub-packets, the callback invocations,
and the two instrumentation flags of the walk. -/
structure ParseOut where
  ret : Bool
  infos : List packet_information_t
  invocations : List (Nat × Nat × Nat × Nat × List Nat)
  oobRead : Bool
  terminated : Bool
deriving DecidableEq, Repr

/-- `serial_controller::parse_packet`: on a non-empty frame it walks the
buffer by each sub-packet's self-length, dispatches by type, sets
`mStatus = SERIAL_OK` and returns true; on an empty frame it sets
`mStatus = SERIAL_EMPTY` and returns false.  The fuel
`receive.length + 1` is enough for every terminating run because each
iteration with a positive self-length advances `i`. -/
def parse_packet (hm : List (Nat × Nat)) (st : CtrlState) (receive : packet_t) :
    CtrlState × ParseOut :=
  if 0 < receive.length then
    let r := parseSteps receive.buffer receive.length (receive.length + 1) 0
    ({ st with mStatus := .SERIAL_OK },
      { ret := true
        infos := r.1
        invocations := dispatchInfos hm r.1
        oobRead := r.2.1
        terminated := r.2.2 })
  else
    ({ st with mStatus := .SERIAL_EMPTY },
      { ret := false, infos := [], invocations := [], oobRead := false,
        terminated := true })

/-- Outcome of one blocking `writePacket` call
(`mSerial.write` may throw a serial or an I/O exception, or write
fewer bytes than requested). -/
inductive WriteOutcome where
  | ok
  | short
  | serialExn
  | ioExn
deriving DecidableEq, Repr

/-- Outcome of one `readPacket` loop: either `waitReadable` times out,
a read throws, or the streaming decoder (`decode_pkgs`, or_bus library)
eventually assembles a complete frame `p` into `mReceive`. -/
inductive ReadOutcome where
  | timeout
  | serialExn
  | ioExn
  | got (p : packet_t)
deriving DecidableEq, Repr

/-- Transport oracle for one round trip. -/
structure Transport where
  isOpen : Bool
  writeOutcome : WriteOutcome
  readOutcome : ReadOutcome
deriving DecidableEq, Repr

/-- `serial_controller::writePacket`: builds and writes the frame;
an exception sets `SERIAL_EXCEPTION` / `SERIAL_IOEXCEPTION` and returns
false, a short write returns false, otherwise true. -/
def writePacket (st : CtrlState) (w : WriteOutcome) : CtrlState × Bool :=
  match w with
  | .ok => (st, true)
  | .short => (st, false)
  | .serialExn => ({ st with mStatus := .SERIAL_EXCEPTION }, false)
  | .ioExn => ({ st with mStatus := .SERIAL_IOEXCEPTION }, false)

/-- `serial_controller::readPacket`: returns false at once when
`mStopping` is set; on a `waitReadable` timeout sets `SERIAL_TIMEOUT`
and returns false; on a read exception sets the exception status and
returns false; otherwise the streaming decoder completes a frame into
`mReceive` and it returns true. -/
def readPacket (st : CtrlState) (o : ReadOutcome) : CtrlState × Bool :=
  if st.mStopping then (st, false)
  else
    match o with
    | .timeout => ({ st with mStatus := .SERIAL_TIMEOUT }, false)
    | .serialExn => ({ st with mStatus := .SERIAL_EXCEPTION }, false)
    | .ioExn => ({ st with mStatus := .SERIAL_IOEXCEPTION }, false)
    | .got p => ({ st with mReceive := p }, true)

/-- `serial_controller::sendSerialPacket`: when the port is open it
writes the packet (the Bool result of `writePacket` is ignored by the
source) and reads; on a successful read it returns `mReceive`,
otherwise a zero-length packet. -/
def sendSerialPacket (st : CtrlState) (tr : Transport) (_packet : packet_t) :
    CtrlState × packet_t :=
  if tr.isOpen then
    let w := writePacket st tr.writeOutcome
    let r := readPacket w.1 tr.readOutcome
    if r.2 then (r.1, r.1.mReceive)
    else (r.1, { length := 0, buffer := [] })
  else (st, { length := 0, buffer := [] })

/-- `serial_controller::sendSerialFrame(packet_information_t)`:
encode one descriptor, send it, parse the reply. -/
def sendSerialFrameSingle (hm : List (Nat × Nat)) (st : CtrlState)
    (tr : Transport) (frame : packet_information_t) : CtrlState × ParseOut :=
  let packet := encoderSingle frame
  let s := sendSerialPacket st tr packet
  parse_packet hm s.1 s.2

/-- `serial_controller::sendSerialFrame(vector<packet_information_t>)`:
for a non-empty batch, encode; when the encoder encoded the whole batch,
send and parse the reply; otherwise set `SERIAL_BUFFER_FULL` and fall
through — the source then reaches the final `return true`, which is
also the result for an empty batch. -/
def sendSerialFrameVec (hm : List (Nat × Nat)) (st : CtrlState)
    (tr : Transport) (batch : List packet_information_t) : CtrlState × ParseOut :=
  if batch.length ≠ 0 then
    let e := encoder batch
    if e.1 = batch.length then
      let s := sendSerialPacket st tr e.2
      parse_packet hm s.1 s.2
    else
      ({ st with mStatus := .SERIAL_BUFFER_FULL },
        { ret := true, infos := [], invocations := [], oobRead := false,
          terminated := true })
  else
    (st,
      { ret := true, infos := [], invocations := [], oobRead := false,
        terminated := true })

/-- `serial_controller::sendList`: under the queue mutex, send the
pending list; when the send returned true, clear the list. -/
def sendList (hm : List (Nat × Nat)) (st : CtrlState) (tr : Transport) :
    CtrlState × ParseOut :=
  let s := sendSerialFrameVec hm st tr st.list_send
  if s.2.ret then ({ s.1 with list_send := [] }, s.2) else s

/-- `serial_controller::addFrame(packet_information_t)`:
append one descriptor to the pending list under the mutex. -/
def addFrame (st : CtrlState) (p : packet_information_t) : CtrlState :=
  { st with list_send := st.list_send ++ [p] }

/-- `serial_controller::addFrame(vector)`: append a batch under the mutex. -/
def addFrameList (st : CtrlState) (ps : List packet_information_t) : CtrlState :=
  { st with list_send := st.list_send ++ ps }

/-- `serial_controller::resetList`: clear the pending list under the mutex. -/
def resetList (st : CtrlState) : CtrlState :=
  { st with list_send := [] }

/-- `serial_controller::addCallback`: fail (returning false and leaving
the hashmap unchanged) when the type is already bound, otherwise bind it. -/
def addCallback (hm : List (Nat × Nat)) (callback : Nat) (type : Nat) :
    Bool × List (Nat × Nat) :=
  if (hm.lookup type).isSome then (false, hm)
  else (true, (type, callback) :: hm)

/-- Modelled from the spec: the or_bus constant `PACKET_REQUEST`
(not under `src/`); its concrete value does not affect any claim. -/
def PACKET_REQUEST : Nat := 1

/-- Modelled from the spec: the or_bus macro
`CREATE_PACKET_RESPONSE(command, type, option)` (not under `src/`)
builds a descriptor with empty payload, hence self-length 4 per the
wire format of spec section 6. -/
def CREATE_PACKET_RESPONSE (command type opt : Nat) : packet_information_t :=
  { length := 4, type := type, option := opt, command := command, message := [] }

/-- `serial_controller::isAlive`: flush and send the zero-category
liveness probe `CREATE_PACKET_RESPONSE(0, 0, PACKET_REQUEST)`. -/
def isAlive (hm : List (Nat × Nat)) (st : CtrlState) (tr : Transport) :
    CtrlState × ParseOut :=
  sendSerialFrameSingle hm st tr (CREATE_PACKET_RESPONSE 0 0 PACKET_REQUEST)

/-- `serial_controller::start`: return false when opening the port
threw (`openOk = false`) or the port is not open afterwards; otherwise
clear `mStopping` and succeed exactly when the liveness probe does. -/
def start (hm : List (Nat × Nat)) (st : CtrlState) (tr : Transport)
    (openOk : Bool) : CtrlState × Bool :=
  if openOk = false then (st, false)
  else if tr.isOpen = false then (st, false)
  else
    let st1 := { st with mStopping := false }
    let a := isAlive hm st1 tr
    if a.2.ret then (a.1, true) else (a.1, false)

/-- `serial_controller::stop`: set the stop flag, clear the pending
list, close the port. -/
def stop (st : CtrlState) : CtrlState :=
  { st with mStopping := true, list_send := [] }

/-- Observable events of the controller's operations, for stating the
lock discipline: mutex acquire and release, the blocking transport
calls (`mSerial.write`, `waitReadable`/`mSerial.read`), and a mutation
of the pending list. -/
inductive Ev where
  | lock
  | unlock
  | transportWrite
  | transportRead
  | queueMutate
deriving DecidableEq, Repr

/-- Events of `readPacket`: unless the stop flag is set, it blocks on
`waitReadable` and reads. -/
def readPacketTrace (st : CtrlState) : List Ev :=
  if st.mStopping then [] else [.transportRead]

/-- Events of `sendSerialPacket`: with the port open, one blocking
write followed by the read loop. -/
def sendSerialPacketTrace (st : CtrlState) (tr : Transport) : List Ev :=
  if tr.isOpen then .transportWrite :: readPacketTrace st else []

/-- Events of `sendSerialFrame(vector)`: the round trip happens only
for a non-empty batch that the encoder encoded completely. -/
def sendSerialFrameVecTrace (st : CtrlState) (tr : Transport)
    (batch : List packet_information_t) : List Ev :=
  if batch.length ≠ 0 then
    if (encoder batch).1 = batch.length then sendSerialPacketTrace st tr else []
  else []

/-- Events of `sendList`: the mutex is taken, `sendSerialFrame` runs
(including its blocking transport calls), the list is cleared when the
send returned true, and only then is the mutex released. -/
def sendListTrace (hm : List (Nat × Nat)) (st : CtrlState) (tr : Transport) :
    List Ev :=
  [.lock] ++ sendSerialFrameVecTrace st tr st.list_send ++
    (if (sendSerialFrameVec hm st tr st.list_send).2.ret then [.queueMutate]
     else []) ++ [.unlock]

/-- Events of `addFrame` (either overload): lock, mutate, unlock. -/
def addFrameTrace : List Ev := [.lock, .queueMutate, .unlock]

/-- Events of `resetList`: lock, mutate, unlock. -/
def resetListTrace : List Ev := [.lock, .queueMutate, .unlock]

/-- True when some blocking transport call happens while the mutex is
held (`d` is the current lock depth). -/
def blockingWhileLocked : List Ev → Nat → Bool
  | [], _ => false
  | Ev.lock :: rest, d => blockingWhileLocked rest (d + 1)
  | Ev.unlock :: rest, d => blockingWhileLocked rest (d - 1)
  | Ev.transportWrite :: rest, d => decide (0 < d) || blockingWhileLocked rest d
  | Ev.transportRead :: rest, d => decide (0 < d) || blockingWhileLocked rest d
  | Ev.queueMutate :: rest, d => blockingWhileLocked rest d

/-- What `uNavInterface::allMotorsFrame` does with a dispatched motor
number: call `motorFrame` on the motor found by `mMotorName.at`, throw
`std::out_of_range` from `.at` when the index is out of range, or log
the warning of the `else` branch. -/
inductive MotorFrameAct where
  | motorFrameCall (name : String) (idx : Nat)
  | atOutOfRange
  | warnLog
deriving DecidableEq, Repr

/-- `uNavInterface::allMotorsFrame`, reduced to its control flow on the
decoded motor number: the guard is the source's
`number_motor >= 0 || number_motor < mMotorName.size()` (with
`number_motor` a non-negative int extracted from an unsigned bitfield
of the command byte); inside the guard, `mMotorName.at(number_motor)`
either yields the motor name or throws `std::out_of_range`. -/
def allMotorsFrame (mMotorName : List String) (number_motor : Nat) :
    MotorFrameAct :=
  if decide ((0 : Int) ≤ (number_motor : Int))
      || decide (number_motor < mMotorName.length) then
    match mMotorName.get? number_motor with
    | some name => .motorFrameCall name number_motor
    | none => .atOutOfRange
  else .warnLog

/-- A valid descriptor built from its routed fields: self-length is the
payload length plus the four header bytes. -/
def mkPacket (t o c : Nat) (m : List Nat) : packet_information_t :=
  { length := m.length + 4, type := t, option := o, command := c, message := m }

/-- A transport whose `waitReadable` always times out. -/
def timeoutTransport : Transport :=
  { isOpen := true, writeOutcome := .ok, readOutcome := .timeout }

/-- The liveness probe descriptor sent by `isAlive`. -/
def probeFrame : packet_information_t := CREATE_PACKET_RESPONSE 0 0 PACKET_REQUEST

/-- A descriptor whose self-length alone exceeds the frame capacity. -/
def bigPacket : packet_information_t :=
  { length := 200, type := 3, option := 0, command := 0, message := [] }

/-- A controller whose pending list holds one probe descriptor. -/
def loadedState : CtrlState := { initState with list_send := [probeFrame] }

/-- A transport that answers every round trip with a well-formed frame
holding a single category-0 sub-packet. -/
def aliveTransport : Transport :=
  { isOpen := true, writeOutcome := .ok
    readOutcome := .got { length := 4, buffer := [4, 0, 0, 0] } }

/-! ## Helper lemmas -/

theorem getD_range_map (l : List Nat) :
    (List.range l.length).map (fun k => l.getD k 0) = l := by
  induction l with
  | nil => rfl
  | cons a t ih =>
    rw [List.length_cons, List.range_succ_eq_map, List.map_cons, List.map_map]
    have hc : ((fun k => (a :: t).getD k 0) ∘ Nat.succ) = (fun k => t.getD k 0) := by
      funext k
      simp [Function.comp, List.getD_cons_succ]
    rw [hc, ih]
    simp [List.getD_cons_zero]

theorem getD_pre_append (pre mid post : List Nat) (k : Nat) (hk : k < mid.length) :
    (pre ++ (mid ++ post)).getD (pre.length + k) 0 = mid.getD k 0 := by
  rw [List.getD_append_right pre (mid ++ post) 0 (pre.length + k) (Nat.le_add_right _ _)]
  rw [Nat.add_sub_cancel_left]
  exact List.getD_append mid post 0 k hk

theorem encodeSub_getD_message (p : packet_information_t) (k : Nat) :
    (encodeSub p).getD (4 + k) 0 = p.message.getD k 0 := by
  show (p.length :: p.type :: p.option :: p.command :: p.message).getD (4 + k) 0
      = p.message.getD k 0
  have h4 : 4 + k = k + 1 + 1 + 1 + 1 := by omega
  rw [h4]
  simp [List.getD_cons_succ]

theorem encodeSub_length (p : packet_information_t) (hp : validPacket p) :
    (encodeSub p).length = p.length := by
  simp only [validPacket] at hp
  simp only [encodeSub, List.length_cons]
  omega

theorem subPacketAt_encode (pre post : List Nat) (p : packet_information_t)
    (hp : validPacket p) :
    subPacketAt (pre ++ (encodeSub p ++ post)) pre.length = p := by
  have hml : (encodeSub p).length = p.message.length + 4 := by
    simp [encodeSub]
  have h0 : (pre ++ (encodeSub p ++ post)).getD (pre.length + 0) 0 = p.length := by
    have h := getD_pre_append pre (encodeSub p) post 0 (by omega)
    simpa [encodeSub] using h
  have h1 : (pre ++ (encodeSub p ++ post)).getD (pre.length + 1) 0 = p.type := by
    have h := getD_pre_append pre (encodeSub p) post 1 (by omega)
    simpa [encodeSub, List.getD_cons_succ, List.getD_cons_zero] using h
  have h2 : (pre ++ (encodeSub p ++ post)).getD (pre.length + 2) 0 = p.option := by
    have h := getD_pre_append pre (encodeSub p) post 2 (by omega)
    simpa [encodeSub, List.getD_cons_succ, List.getD_cons_zero] using h
  have h3 : (pre ++ (encodeSub p ++ post)).getD (pre.length + 3) 0 = p.command := by
    have h := getD_pre_append pre (encodeSub p) post 3 (by omega)
    simpa [encodeSub, List.getD_cons_succ, List.getD_cons_zero] using h
  have hmsg : ∀ k, k < p.message.length →
      (pre ++ (encodeSub p ++ post)).getD (pre.length + 4 + k) 0
        = p.message.getD k 0 := by
    intro k hk
    have h := getD_pre_append pre (encodeSub p) post (4 + k) (by omega)
    rw [encodeSub_getD_message] at h
    rw [← h]
    congr 1
    omega
  have h0' : (pre ++ (encodeSub p ++ post)).getD pre.length 0 = p.length := by
    simpa using h0
  simp only [subPacketAt, h0', h1, h2, h3]
  have hlen : p.length - 4 = p.message.length := by
    simp only [validPacket] at hp
    omega
  rw [hlen]
  have hmap : (List.range p.message.length).map
      (fun k => (pre ++ (encodeSub p ++ post)).getD (pre.length + 4 + k) 0)
      = (List.range p.message.length).map (fun k => p.message.getD k 0) := by
    apply List.map_congr_left
    intro k hk
    exact hmsg k (List.mem_range.mp hk)
  rw [hmap, getD_range_map]

theorem parseSteps_encodeFrame (batch : List packet_information_t) :
    ∀ (pre : List Nat) (fuel : Nat), batch.length < fuel →
      (∀ p ∈ batch, validPacket p) →
      parseSteps (pre ++ encodeFrame batch) (pre.length + sizeSum batch) fuel
          pre.length = (batch, false, true) := by
  induction batch with
  | nil =>
    intro pre fuel hf _
    obtain ⟨f, rfl⟩ : ∃ f, fuel = f + 1 := ⟨fuel - 1, by omega⟩
    simp [parseSteps, encodeFrame, sizeSum]
  | cons p rest ih =>
    intro pre fuel hf hv
    obtain ⟨f, rfl⟩ : ∃ f, fuel = f + 1 := ⟨fuel - 1, by omega⟩
    simp only [List.length_cons] at hf
    have hp : validPacket p := hv p (List.mem_cons_self _ _)
    have hpl : p.length = p.message.length + 4 := hp
    have hframe : encodeFrame (p :: rest) = encodeSub p ++ encodeFrame rest := by
      simp [encodeFrame]
    have hsize : sizeSum (p :: rest) = p.length + sizeSum rest := by
      simp [sizeSum]
    rw [hframe, hsize]
    have hlt : pre.length < pre.length + (p.length + sizeSum rest) := by omega
    have hlen : (pre ++ (encodeSub p ++ encodeFrame rest)).getD pre.length 0
        = p.length := by
      have h := getD_pre_append pre (encodeSub p) (encodeFrame rest) 0
        (by simp [encodeSub])
      simpa [encodeSub] using h
    have hsub : subPacketAt (pre ++ (encodeSub p ++ encodeFrame rest)) pre.length
        = p := subPacketAt_encode pre (encodeFrame rest) p hp
    have hrec : parseSteps (pre ++ (encodeSub p ++ encodeFrame rest))
        (pre.length + (p.length + sizeSum rest)) f (pre.length + p.length)
        = (rest, false, true) := by
      have hassoc : pre ++ (encodeSub p ++ encodeFrame rest)
          = (pre ++ encodeSub p) ++ encodeFrame rest := by
        simp [List.append_assoc]
      have hplen : (pre ++ encodeSub p).length = pre.length + p.length := by
        simp [List.length_append, encodeSub_length p hp]
      have h := ih (pre ++ encodeSub p) f (by omega)
        (fun q hq => hv q (List.mem_cons_of_mem _ hq))
      rw [hassoc]
      rw [← hplen]
      have hn : pre.length + (p.length + sizeSum rest)
          = (pre ++ encodeSub p).length + sizeSum rest := by
        rw [hplen]; omega
      rw [hn]
      exact h
    have hnoob : decide (pre.length + (p.length + sizeSum rest)
        < pre.length + p.length) = false := by
      have hx : ¬ (pre.length + (p.length + sizeSum rest)
          < pre.length + p.length) := by omega
      exact decide_eq_false hx
    simp only [parseSteps, if_pos hlt, hlen, hsub, hrec, hnoob, Bool.false_or]

theorem parse_packet_encodeFrame (hm : List (Nat × Nat)) (st : CtrlState)
    (batch : List packet_information_t) (hne : batch ≠ [])
    (hv : ∀ p ∈ batch, validPacket p) :
    parse_packet hm st { length := sizeSum batch, buffer := encodeFrame batch }
      = ({ st with mStatus := .SERIAL_OK },
        { ret := true, infos := batch, invocations := dispatchInfos hm batch,
          oobRead := false, terminated := true }) := by
  have hpos : 0 < sizeSum batch := by
    obtain ⟨p, rest, rfl⟩ : ∃ p rest, batch = p :: rest := by
      cases batch with
      | nil => exact absurd rfl hne
      | cons p rest => exact ⟨p, rest, rfl⟩
    have hp : validPacket p := hv p (List.mem_cons_self _ _)
    have : p.length = p.message.length + 4 := hp
    simp [sizeSum]
    omega
  have hw := parseSteps_encodeFrame batch [] (sizeSum batch + 1)
    (by
      have : batch.length ≤ sizeSum batch := by
        clear hne hpos
        induction batch with
        | nil => simp [sizeSum]
        | cons p rest ih =>
          have hp : validPacket p := hv p (List.mem_cons_self _ _)
          have hpl : p.length = p.message.length + 4 := hp
          have := ih (fun q hq => hv q (List.mem_cons_of_mem _ hq))
          simp [sizeSum] at *
          omega
      omega)
    hv
  simp only [List.nil_append, List.length_nil, Nat.zero_add] at hw
  simp only [parse_packet, if_pos hpos, hw]

theorem writePacket_mStopping (st : CtrlState) (w : WriteOutcome) :
    (writePacket st w).1.mStopping = st.mStopping := by
  cases w <;> rfl

theorem readPacket_mStopping (st : CtrlState) (o : ReadOutcome) :
    (readPacket st o).1.mStopping = st.mStopping := by
  unfold readPacket
  split
  · rfl
  · cases o <;> rfl

theorem parse_packet_mStopping (hm : List (Nat × Nat)) (st : CtrlState)
    (receive : packet_t) :
    (parse_packet hm st receive).1.mStopping = st.mStopping := by
  unfold parse_packet
  split <;> rfl

theorem sendSerialPacket_mStopping (st : CtrlState) (tr : Transport)
    (p : packet_t) :
    (sendSerialPacket st tr p).1.mStopping = st.mStopping := by
  cases htr : tr.isOpen <;> cases hw : tr.writeOutcome <;>
    cases hr : tr.readOutcome <;> cases hs : st.mStopping <;>
      simp [sendSerialPacket, writePacket, readPacket, htr, hw, hr, hs]

theorem sendSerialFrameSingle_mStopping (hm : List (Nat × Nat)) (st : CtrlState)
    (tr : Transport) (frame : packet_information_t) :
    (sendSerialFrameSingle hm st tr frame).1.mStopping = st.mStopping := by
  unfold sendSerialFrameSingle
  simp [parse_packet_mStopping, sendSerialPacket_mStopping]

theorem readPacket_timeout (st : CtrlState) (h : st.mStopping = false) :
    readPacket st .timeout = ({ st with mStatus := .SERIAL_TIMEOUT }, false) := by
  unfold readPacket
  rw [h]
  rfl

theorem readPacket_got (st : CtrlState) (p : packet_t) (h : st.mStopping = false) :
    readPacket st (.got p) = ({ st with mReceive := p }, true) := by
  unfold readPacket
  rw [h]
  rfl

theorem parse_packet_zero (hm : List (Nat × Nat)) (st : CtrlState) :
    parse_packet hm st { length := 0, buffer := [] }
      = ({ st with mStatus := .SERIAL_EMPTY },
        { ret := false, infos := [], invocations := [], oobRead := false,
          terminated := true }) := rfl

theorem sendSerialPacket_timeout (st : CtrlState) (tr : Transport) (pk : packet_t)
    (hopen : tr.isOpen = true) (hto : tr.readOutcome = .timeout)
    (hstop : st.mStopping = false) :
    sendSerialPacket st tr pk
      = ({ (writePacket st tr.writeOutcome).1 with mStatus := .SERIAL_TIMEOUT },
        { length := 0, buffer := [] }) := by
  have hws : (writePacket st tr.writeOutcome).1.mStopping = false := by
    rw [writePacket_mStopping]
    exact hstop
  simp only [sendSerialPacket, hopen, if_true]
  rw [hto, readPacket_timeout _ hws]
  simp

theorem sendSerialPacket_got (st : CtrlState) (tr : Transport) (pk p : packet_t)
    (hopen : tr.isOpen = true) (hgot : tr.readOutcome = .got p)
    (hstop : st.mStopping = false) :
    sendSerialPacket st tr pk
      = ({ (writePacket st tr.writeOutcome).1 with mReceive := p }, p) := by
  have hws : (writePacket st tr.writeOutcome).1.mStopping = false := by
    rw [writePacket_mStopping]
    exact hstop
  simp only [sendSerialPacket, hopen, if_true]
  rw [hgot, readPacket_got _ _ hws]
  simp

/-! ## Claim theorems -/

/-- Claim C1 (code-bug exhibit): the decoder of `parse_packet` does not
fail closed.  On the 2-byte frame `[5, 1]` the self-length 5 makes the
`memcpy` read three bytes past the received bound, yet the frame is
accepted: the walk terminates, no sub-packet is rejected, the status
becomes `SERIAL_OK` and the function returns true instead of failing
with a framing error.  On the 1-byte frame `[0]` the zero self-length
never advances `i`, so the loop never terminates (the fuel runs out
with `terminated = false`) instead of rejecting the frame. -/
theorem parse_packet_trusts_self_length :
    (parse_packet [] initState { length := 2, buffer := [5, 1] }).2
      = { ret := true
          infos := [{ length := 5, type := 1, option := 0, command := 0,
                      message := [0] }]
          invocations := []
          oobRead := true
          terminated := true }
    ∧ (parse_packet [] initState { length := 2, buffer := [5, 1] }).1.mStatus
      = .SERIAL_OK
    ∧ (parse_packet [] initState { length := 1, buffer := [0] }).2.terminated
      = false := by
  decide

/-- Claim C2 (code-bug exhibit): for a non-empty pending batch whose
frame size exceeds the capacity, the encoder fails and
`sendSerialFrame(vector)` sets `SERIAL_BUFFER_FULL` — but then falls
through to `return true`, so `sendList` reports success to the caller
and clears the pending queue.  Nothing is transmitted (the transport
trace of the send is empty). -/
theorem sendList_bufferFull_reports_success_and_clears (hm : List (Nat × Nat))
    (st : CtrlState) (tr : Transport) (hne : st.list_send ≠ [])
    (hover : MAX_FRAME_CAPACITY < frameSize st.list_send) :
    (sendList hm st tr).2.ret = true
    ∧ (sendList hm st tr).1.list_send = []
    ∧ (sendList hm st tr).1.mStatus = .SERIAL_BUFFER_FULL
    ∧ sendSerialFrameVecTrace st tr st.list_send = [] := by
  have hbl : st.list_send.length ≠ 0 := fun h => hne (List.length_eq_zero.mp h)
  have henc : (encoder st.list_send).1 = 0 := by
    unfold encoder
    rw [if_neg (by omega)]
  have hne2 : (encoder st.list_send).1 ≠ st.list_send.length := by
    rw [henc]
    omega
  have hvec : sendSerialFrameVec hm st tr st.list_send
      = ({ st with mStatus := .SERIAL_BUFFER_FULL },
        { ret := true, infos := [], invocations := [], oobRead := false,
          terminated := true }) := by
    unfold sendSerialFrameVec
    rw [if_pos hbl, if_neg hne2]
  have htrace : sendSerialFrameVecTrace st tr st.list_send = [] := by
    unfold sendSerialFrameVecTrace
    rw [if_pos hbl, if_neg hne2]
  refine ⟨?_, ?_, ?_, htrace⟩ <;>
    simp [sendList, hvec]

/-- Witness for `sendList_bufferFull_reports_success_and_clears` at a
concrete over-capacity batch. -/
theorem sendList_bufferFull_witness :
    (sendList [] { initState with list_send := [bigPacket] } timeoutTransport).2.ret = true
    ∧ (sendList [] { initState with list_send := [bigPacket] } timeoutTransport).1.list_send = []
    ∧ (sendList [] { initState with list_send := [bigPacket] } timeoutTransport).1.mStatus
      = .SERIAL_BUFFER_FULL
    ∧ sendSerialFrameVecTrace { initState with list_send := [bigPacket] }
        timeoutTransport ({ initState with list_send := [bigPacket] } : CtrlState).list_send = [] :=
  sendList_bufferFull_reports_success_and_clears []
    { initState with list_send := [bigPacket] } timeoutTransport
    (by decide) (by decide)

/-- Claim C10 (code-bug exhibit): the range guard of
`uNavInterface::allMotorsFrame` uses `||` where `&&` was intended
(`number_motor >= 0 || number_motor < mMotorName.size()`), so for motor
number 5 with only two registered motor names the guard is still taken
and `mMotorName.at(5)` throws `std::out_of_range` instead of the
warning branch running. -/
theorem allMotorsFrame_out_of_range_reaches_at :
    allMotorsFrame ["motor_0", "motor_1"] 5 = .atOutOfRange
    ∧ allMotorsFrame ["motor_0", "motor_1"] 5 ≠ .warnLog
    ∧ allMotorsFrame ["motor_0", "motor_1"] 1 = .motorFrameCall "motor_1" 1 := by
  refine ⟨rfl, ?_, rfl⟩
  intro h
  exact MotorFrameAct.noConfusion h



/-- Claim C3 counterexample: with a transport whose read times out, the
status observed via `getStatus()` after the send is `SERIAL_EMPTY`, not
`SERIAL_TIMEOUT` — `readPacket` sets `SERIAL_TIMEOUT` but
`parse_packet`, called on the resulting zero-length packet, overwrites
it with `SERIAL_EMPTY`, so the claimed final `TIMEOUT` status is false
and the timeout is not distinguished from an empty reply. -/
theorem timeout_final_status_cex :
    (sendSerialFrameVec [] initState timeoutTransport [probeFrame]).2.ret = false
    ∧ (sendSerialFrameVec [] initState timeoutTransport [probeFrame]).1.mStatus
      = .SERIAL_EMPTY
    ∧ (sendSerialFrameVec [] initState timeoutTransport [probeFrame]).1.mStatus
      ≠ .SERIAL_TIMEOUT := by
  decide

/-- Claim C3 amended: when no reply arrives within the timeout window
the send reports failure; `SERIAL_TIMEOUT` is set transiently inside
`readPacket`, but the final status observed afterwards is
`SERIAL_EMPTY` — the same value a zero-length reply produces — so the
two outcomes are not distinguished in the final status. -/
theorem timeout_send_fails_final_status_empty (hm : List (Nat × Nat))
    (st : CtrlState) (tr : Transport) (batch : List packet_information_t)
    (hstop : st.mStopping = false) (hopen : tr.isOpen = true)
    (hto : tr.readOutcome = .timeout) (hne : batch ≠ [])
    (hfit : frameSize batch ≤ MAX_FRAME_CAPACITY) :
    (sendSerialFrameVec hm st tr batch).2.ret = false
    ∧ (sendSerialFrameVec hm st tr batch).1.mStatus = .SERIAL_EMPTY
    ∧ (readPacket (writePacket st tr.writeOutcome).1 tr.readOutcome).1.mStatus
      = .SERIAL_TIMEOUT := by
  have hbl : batch.length ≠ 0 := fun h => hne (List.length_eq_zero.mp h)
  have henc : (encoder batch).1 = batch.length := by
    unfold encoder
    rw [if_pos hfit]
  have hsp := sendSerialPacket_timeout st tr (encoder batch).2 hopen hto hstop
  have hvec : sendSerialFrameVec hm st tr batch
      = parse_packet hm
          ({ (writePacket st tr.writeOutcome).1 with mStatus := .SERIAL_TIMEOUT })
          { length := 0, buffer := [] } := by
    unfold sendSerialFrameVec
    rw [if_pos hbl, if_pos henc, hsp]
  have hws : (writePacket st tr.writeOutcome).1.mStopping = false := by
    rw [writePacket_mStopping]
    exact hstop
  refine ⟨?_, ?_, ?_⟩
  · rw [hvec, parse_packet_zero]
  · rw [hvec, parse_packet_zero]
  · rw [hto, readPacket_timeout _ hws]

/-- Witness for `timeout_send_fails_final_status_empty` on a concrete
probe batch and timing-out transport. -/
theorem timeout_send_fails_witness :
    (sendSerialFrameVec [] initState timeoutTransport [probeFrame]).2.ret = false
    ∧ (sendSerialFrameVec [] initState timeoutTransport [probeFrame]).1.mStatus
      = .SERIAL_EMPTY
    ∧ (readPacket (writePacket initState timeoutTransport.writeOutcome).1
        timeoutTransport.readOutcome).1.mStatus = .SERIAL_TIMEOUT :=
  timeout_send_fails_final_status_empty [] initState timeoutTransport [probeFrame]
    (by decide) (by decide) (by decide) (by decide) (by decide)



/-- Claim C4: `addCallback` on an already-bound category returns false
and leaves the hashmap unchanged; the originally registered handler
stays bound, and dispatching a frame for that category invokes only the
first handler. -/
theorem addCallback_duplicate_keeps_first (hm : List (Nat × Nat))
    (cb1 cb2 t o c : Nat) (hfree : hm.lookup t = none) (ht : t ≠ 0) :
    (addCallback hm cb1 t).1 = true
    ∧ (addCallback (addCallback hm cb1 t).2 cb2 t).1 = false
    ∧ (addCallback (addCallback hm cb1 t).2 cb2 t).2 = (addCallback hm cb1 t).2
    ∧ (parse_packet (addCallback (addCallback hm cb1 t).2 cb2 t).2 initState
        { length := 4, buffer := [4, t, o, c] }).2.invocations
      = [(cb1, o, t, c, [])] := by
  have h1 : addCallback hm cb1 t = (true, (t, cb1) :: hm) := by
    unfold addCallback
    rw [hfree]
    rfl
  have hl : ((t, cb1) :: hm).lookup t = some cb1 := by
    simp [List.lookup]
  have h2 : addCallback ((t, cb1) :: hm) cb2 t = (false, (t, cb1) :: hm) := by
    unfold addCallback
    rw [hl]
    rfl
  have hframe : ({ length := 4, buffer := [4, t, o, c] } : packet_t)
      = { length := sizeSum [mkPacket t o c []]
          buffer := encodeFrame [mkPacket t o c []] } := by
    simp [sizeSum, encodeFrame, encodeSub, mkPacket]
  have hpp := parse_packet_encodeFrame ((t, cb1) :: hm) initState
    [mkPacket t o c []] (by simp)
    (by
      intro p hp
      simp at hp
      subst hp
      rfl)
  refine ⟨by rw [h1], by rw [h1, h2], by rw [h1, h2], ?_⟩
  rw [h1, h2]
  simp only []
  rw [hframe, hpp]
  simp [dispatchInfos, mkPacket, ht, hl]

/-- Witness for `addCallback_duplicate_keeps_first` with two handlers
competing for category 5. -/
theorem addCallback_duplicate_witness :
    (addCallback [] 10 5).1 = true
    ∧ (addCallback (addCallback [] 10 5).2 11 5).1 = false
    ∧ (addCallback (addCallback [] 10 5).2 11 5).2 = (addCallback [] 10 5).2
    ∧ (parse_packet (addCallback (addCallback [] 10 5).2 11 5).2 initState
        { length := 4, buffer := [4, 5, 0, 7] }).2.invocations
      = [(10, 0, 5, 7, [])] :=
  addCallback_duplicate_keeps_first [] 10 11 5 0 7 (by decide) (by decide)



/-- Claim C5: when the reply frame holds exactly one category-0
sub-packet, the dispatch loop invokes no handler (the entry is only the
liveness log), the round trip returns true and the status is
`SERIAL_OK`. -/
theorem alive_reply_no_dispatch (hm : List (Nat × Nat)) (st : CtrlState)
    (tr : Transport) (payload : List Nat) (opt cmd : Nat)
    (hstop : st.mStopping = false) (hopen : tr.isOpen = true)
    (hgot : tr.readOutcome
      = .got { length := sizeSum [mkPacket 0 opt cmd payload]
               buffer := encodeFrame [mkPacket 0 opt cmd payload] }) :
    (sendSerialFrameSingle hm st tr (CREATE_PACKET_RESPONSE 0 0 PACKET_REQUEST)).2.ret
      = true
    ∧ (sendSerialFrameSingle hm st tr
        (CREATE_PACKET_RESPONSE 0 0 PACKET_REQUEST)).2.invocations = []
    ∧ (sendSerialFrameSingle hm st tr
        (CREATE_PACKET_RESPONSE 0 0 PACKET_REQUEST)).1.mStatus = .SERIAL_OK := by
  have hsp := sendSerialPacket_got st tr
    (encoderSingle (CREATE_PACKET_RESPONSE 0 0 PACKET_REQUEST))
    { length := sizeSum [mkPacket 0 opt cmd payload]
      buffer := encodeFrame [mkPacket 0 opt cmd payload] } hopen hgot hstop
  have hpp := parse_packet_encodeFrame hm
    ({ (writePacket st tr.writeOutcome).1 with
        mReceive := { length := sizeSum [mkPacket 0 opt cmd payload]
                      buffer := encodeFrame [mkPacket 0 opt cmd payload] } })
    [mkPacket 0 opt cmd payload] (by simp)
    (by
      intro p hp
      simp at hp
      subst hp
      rfl)
  have hstep : sendSerialFrameSingle hm st tr
      (CREATE_PACKET_RESPONSE 0 0 PACKET_REQUEST)
      = parse_packet hm
        ({ (writePacket st tr.writeOutcome).1 with
            mReceive := { length := sizeSum [mkPacket 0 opt cmd payload]
                          buffer := encodeFrame [mkPacket 0 opt cmd payload] } })
        { length := sizeSum [mkPacket 0 opt cmd payload]
          buffer := encodeFrame [mkPacket 0 opt cmd payload] } := by
    show parse_packet hm
        (sendSerialPacket st tr
          (encoderSingle (CREATE_PACKET_RESPONSE 0 0 PACKET_REQUEST))).1
        (sendSerialPacket st tr
          (encoderSingle (CREATE_PACKET_RESPONSE 0 0 PACKET_REQUEST))).2 = _
    rw [hsp]
  rw [hstep, hpp]
  refine ⟨rfl, ?_, rfl⟩
  simp [dispatchInfos, mkPacket]

/-- Witness for `alive_reply_no_dispatch`: a registered handler for
category 3 is not invoked by a pure category-0 reply. -/
theorem alive_reply_no_dispatch_witness :
    (sendSerialFrameSingle [(3, 9)] initState aliveTransport
        (CREATE_PACKET_RESPONSE 0 0 PACKET_REQUEST)).2.ret = true
    ∧ (sendSerialFrameSingle [(3, 9)] initState aliveTransport
        (CREATE_PACKET_RESPONSE 0 0 PACKET_REQUEST)).2.invocations = []
    ∧ (sendSerialFrameSingle [(3, 9)] initState aliveTransport
        (CREATE_PACKET_RESPONSE 0 0 PACKET_REQUEST)).1.mStatus = .SERIAL_OK :=
  alive_reply_no_dispatch [(3, 9)] initState aliveTransport [] 0 0
    (by decide) (by decide) (by decide)

/-- Claim C8: for every non-empty batch of valid descriptors whose
frame size is within the capacity, the encoder encodes the whole batch
and decoding the encoded frame with `parse_packet` yields exactly the
original batch, with no out-of-bounds read and a successful result. -/
theorem encode_decode_roundtrip (hm : List (Nat × Nat)) (st : CtrlState)
    (batch : List packet_information_t) (hne : batch ≠ [])
    (hv : ∀ p ∈ batch, p.length = p.message.length + 4 ∧ p.length ≤ 255)
    (hfit : frameSize batch ≤ MAX_FRAME_CAPACITY) :
    (encoder batch).1 = batch.length
    ∧ (parse_packet hm st (encoder batch).2).2.infos = batch
    ∧ (parse_packet hm st (encoder batch).2).2.ret = true
    ∧ (parse_packet hm st (encoder batch).2).2.oobRead = false := by
  have henc1 : (encoder batch).1 = batch.length := by
    unfold encoder
    rw [if_pos hfit]
  have henc2 : (encoder batch).2
      = { length := sizeSum batch, buffer := encodeFrame batch } := by
    unfold encoder
    rw [if_pos hfit]
  have hpp := parse_packet_encodeFrame hm st batch hne (fun p hp => (hv p hp).1)
  refine ⟨henc1, ?_, ?_, ?_⟩ <;> rw [henc2, hpp]

/-- Witness for `encode_decode_roundtrip` on a two-descriptor batch. -/
theorem encode_decode_roundtrip_witness :
    (encoder [mkPacket 1 2 3 [9], mkPacket 7 0 1 []]).1
      = ([mkPacket 1 2 3 [9], mkPacket 7 0 1 []] : List packet_information_t).length
    ∧ (parse_packet [] initState
        (encoder [mkPacket 1 2 3 [9], mkPacket 7 0 1 []]).2).2.infos
      = [mkPacket 1 2 3 [9], mkPacket 7 0 1 []]
    ∧ (parse_packet [] initState
        (encoder [mkPacket 1 2 3 [9], mkPacket 7 0 1 []]).2).2.ret = true
    ∧ (parse_packet [] initState
        (encoder [mkPacket 1 2 3 [9], mkPacket 7 0 1 []]).2).2.oobRead = false :=
  encode_decode_roundtrip [] initState [mkPacket 1 2 3 [9], mkPacket 7 0 1 []]
    (by decide) (by decide) (by decide)



/-- Claim C6 counterexample: a frame holding one registered (category 5)
and one unknown (category 9) sub-packet.  The complete observable
result of the dispatch is shown: the known handler fires once, the
unknown entry is skipped with no effect — the status stays `SERIAL_OK`
and nothing records an `UnknownType` (no such value exists in
`serial_status_t` and no other output channel exists), contradicting
the claim that exactly one `UnknownType` is recorded. -/
theorem unknownType_never_recorded_cex :
    (parse_packet [(5, 77)] initState
        { length := 8, buffer := [4, 5, 0, 1, 4, 9, 0, 2] }).2
      = { ret := true
          infos := [{ length := 4, type := 5, option := 0, command := 1,
                      message := [] },
                    { length := 4, type := 9, option := 0, command := 2,
                      message := [] }]
          invocations := [(77, 0, 5, 1, [])]
          oobRead := false
          terminated := true }
    ∧ (parse_packet [(5, 77)] initState
        { length := 8, buffer := [4, 5, 0, 1, 4, 9, 0, 2] }).1.mStatus
      = .SERIAL_OK := by
  decide

/-- Claim C6 amended: for a frame holding one sub-packet of an
unregistered category among otherwise-registered categories, dispatch
invokes every known handler exactly once in sub-packet order and
silently skips the unknown entry, continuing with the remaining
entries; no `UnknownType` is recorded — the result is reported as a
success with status `SERIAL_OK`. -/
theorem unknown_category_skipped_known_dispatched
    (h1 h2 t1 t2 tu o1 o2 ou c1 c2 cu : Nat) (m1 m2 mu : List Nat)
    (st : CtrlState)
    (ht1 : t1 ≠ 0) (ht2 : t2 ≠ 0) (htu : tu ≠ 0)
    (h12 : t1 ≠ t2) (hu1 : tu ≠ t1) (hu2 : tu ≠ t2) :
    (parse_packet [(t1, h1), (t2, h2)] st
        { length := sizeSum [mkPacket t1 o1 c1 m1, mkPacket tu ou cu mu,
            mkPacket t2 o2 c2 m2]
          buffer := encodeFrame [mkPacket t1 o1 c1 m1, mkPacket tu ou cu mu,
            mkPacket t2 o2 c2 m2] }).2.invocations
      = [(h1, o1, t1, c1, m1), (h2, o2, t2, c2, m2)]
    ∧ (parse_packet [(t1, h1), (t2, h2)] st
        { length := sizeSum [mkPacket t1 o1 c1 m1, mkPacket tu ou cu mu,
            mkPacket t2 o2 c2 m2]
          buffer := encodeFrame [mkPacket t1 o1 c1 m1, mkPacket tu ou cu mu,
            mkPacket t2 o2 c2 m2] }).2.ret = true
    ∧ (parse_packet [(t1, h1), (t2, h2)] st
        { length := sizeSum [mkPacket t1 o1 c1 m1, mkPacket tu ou cu mu,
            mkPacket t2 o2 c2 m2]
          buffer := encodeFrame [mkPacket t1 o1 c1 m1, mkPacket tu ou cu mu,
            mkPacket t2 o2 c2 m2] }).1.mStatus = .SERIAL_OK := by
  have hpp := parse_packet_encodeFrame [(t1, h1), (t2, h2)] st
    [mkPacket t1 o1 c1 m1, mkPacket tu ou cu mu, mkPacket t2 o2 c2 m2]
    (by simp)
    (by
      intro p hp
      simp at hp
      rcases hp with hp | hp | hp <;> subst hp <;> rfl)
  rw [hpp]
  refine ⟨?_, rfl, rfl⟩
  have b1 : (tu == t1) = false := by simp [hu1]
  have b2 : (tu == t2) = false := by simp [hu2]
  have b3 : (t2 == t1) = false := by simp [Ne.symm h12]
  have b4 : (t1 == t1) = true := by simp
  simp only [dispatchInfos, List.filterMap, mkPacket, List.lookup, b1, b2, b3, b4]
  simp [ht1, htu, ht2]

/-- Witness for `unknown_category_skipped_known_dispatched` with
categories 5 and 6 registered and category 9 unknown. -/
theorem unknown_category_skipped_witness :
    (parse_packet [(5, 10), (6, 20)] initState
        { length := sizeSum [mkPacket 5 0 1 [1], mkPacket 9 0 2 [2, 3],
            mkPacket 6 0 3 []]
          buffer := encodeFrame [mkPacket 5 0 1 [1], mkPacket 9 0 2 [2, 3],
            mkPacket 6 0 3 []] }).2.invocations
      = [(10, 0, 5, 1, [1]), (20, 0, 6, 3, [])]
    ∧ (parse_packet [(5, 10), (6, 20)] initState
        { length := sizeSum [mkPacket 5 0 1 [1], mkPacket 9 0 2 [2, 3],
            mkPacket 6 0 3 []]
          buffer := encodeFrame [mkPacket 5 0 1 [1], mkPacket 9 0 2 [2, 3],
            mkPacket 6 0 3 []] }).2.ret = true
    ∧ (parse_packet [(5, 10), (6, 20)] initState
        { length := sizeSum [mkPacket 5 0 1 [1], mkPacket 9 0 2 [2, 3],
            mkPacket 6 0 3 []]
          buffer := encodeFrame [mkPacket 5 0 1 [1], mkPacket 9 0 2 [2, 3],
            mkPacket 6 0 3 []] }).1.mStatus = .SERIAL_OK :=
  unknown_category_skipped_known_dispatched 10 20 5 6 9 0 0 0 1 3 2 [1] [] [2, 3]
    initState (by decide) (by decide) (by decide) (by decide) (by decide)
    (by decide)



/-- Claim C7: `start` succeeds exactly when the transport open stage
succeeds (`openOk` — no exception — and the port reports open) and the
subsequent zero-category liveness probe `isAlive` succeeds; on success
the controller is left in the open state (`mStopping = false`). -/
theorem start_ok_iff (hm : List (Nat × Nat)) (st : CtrlState) (tr : Transport)
    (openOk : Bool) :
    ((start hm st tr openOk).2 = true
      ↔ (openOk = true ∧ tr.isOpen = true
          ∧ (isAlive hm { st with mStopping := false } tr).2.ret = true))
    ∧ ((start hm st tr openOk).2 = true
        → (start hm st tr openOk).1.mStopping = false) := by
  have hms : (isAlive hm { st with mStopping := false } tr).1.mStopping
      = false := by
    unfold isAlive
    rw [sendSerialFrameSingle_mStopping]
  cases openOk with
  | false => simp [start]
  | true =>
    cases htr : tr.isOpen with
    | false => simp [start, htr]
    | true =>
      cases ha : (isAlive hm { st with mStopping := false } tr).2.ret with
      | false => simp [start, htr, ha]
      | true => simp [start, htr, ha, hms]

/-- Witness for `start_ok_iff`: a transport that opens and answers the
probe with a category-0 frame makes `start` succeed and leave
`mStopping = false`. -/
theorem start_ok_iff_witness :
    (start [] initState aliveTransport true).2 = true
    ∧ (start [] initState aliveTransport true).1.mStopping = false := by
  have h := start_ok_iff [] initState aliveTransport true
  have hs : (start [] initState aliveTransport true).2 = true :=
    h.1.mpr ⟨rfl, rfl, by decide⟩
  exact ⟨hs, h.2 hs⟩

/-- Claim C9 counterexample: with a frame pending and the port open,
`sendList` performs its blocking transport write and read while the
queue mutex is held, so the claim that the lock is never held across a
blocking transport call is false for the send operation. -/
theorem sendList_blocks_while_locked_cex :
    blockingWhileLocked (sendListTrace [] loadedState timeoutTransport) 0
      = true := by
  decide

/-- Claim C9 amended: `addFrame` and `resetList` hold the queue mutex
only around the queue mutation and never across a blocking transport
call, but `sendList` — whenever the batch is non-empty, fits the frame
capacity and the port is open — holds the mutex across the blocking
write and read of the round trip. -/
theorem lock_discipline_amended (hm : List (Nat × Nat)) (st : CtrlState)
    (tr : Transport) (hne : st.list_send ≠ [])
    (hfit : frameSize st.list_send ≤ MAX_FRAME_CAPACITY)
    (hopen : tr.isOpen = true) (hstop : st.mStopping = false) :
    blockingWhileLocked addFrameTrace 0 = false
    ∧ blockingWhileLocked resetListTrace 0 = false
    ∧ blockingWhileLocked (sendListTrace hm st tr) 0 = true := by
  refine ⟨by decide, by decide, ?_⟩
  have hbl : st.list_send.length ≠ 0 := fun h => hne (List.length_eq_zero.mp h)
  have henc : (encoder st.list_send).1 = st.list_send.length := by
    unfold encoder
    rw [if_pos hfit]
  have htr : sendSerialFrameVecTrace st tr st.list_send
      = [.transportWrite, .transportRead] := by
    unfold sendSerialFrameVecTrace sendSerialPacketTrace readPacketTrace
    rw [if_pos hbl, if_pos henc]
    simp [hopen, hstop]
  unfold sendListTrace
  rw [htr]
  simp [blockingWhileLocked]

/-- Witness for `lock_discipline_amended` on a loaded pending queue and
an open transport. -/
theorem lock_discipline_amended_witness :
    blockingWhileLocked addFrameTrace 0 = false
    ∧ blockingWhileLocked resetListTrace 0 = false
    ∧ blockingWhileLocked (sendListTrace [] loadedState timeoutTransport) 0
      = true :=
  lock_discipline_amended [] loadedState timeoutTransport (by decide) (by decide)
    (by decide) (by decide)

end orbus
